import Mathlib

/-!
Verification of the glucoAudio analysis pipeline.

Shallow embedding of the deterministic core of the repository:
the context scorer (`app/services/context_service.py`), the
length normalisation in the embedding extractor
(`app/agents/embedding_extractor.py`), response parsing and
fallback in the inference gateway (`app/agents/claude_inference.py`),
profile selection and audio fallback in the response synthesizer
(`app/agents/voice_synthesis.py`), and the audio quality assessor
(`app/agents/audio_processor.py`).

Python `None`-able arguments are embedded as `Option`; Python dicts
coming from `json.loads` are embedded as association lists with
unique keys (Python dicts keep one entry per key); floating point
values are embedded as rationals (the code performs no float
operation whose rounding matters to any property proved here);
external library calls (the pretrained model, librosa features,
`json.loads`, the TTS service, `log10`) are passed in as explicit
arguments, since their outputs are data the repository code only
post-processes.
-/

namespace GlucoAudio

/-! ### Context scorer (`app/services/context_service.py`) -/

/-- Return record of `determine_metabolic_phase`. -/
structure MetabolicPhase where
  phase : String
  expected_pattern : String
  is_critical_window : Bool
  special_notes : String
deriving DecidableEq, Repr

/-- The `if not meal_timing:` default record (lines 3-9). -/
def phaseNoTiming : MetabolicPhase :=
  { phase := "Unknown"
    expected_pattern := "Unpredictable"
    is_critical_window := false
    special_notes := "insufficient meal timing data" }

/-- The `phases.get(meal_timing, ...)` default record (lines 56-61). -/
def phaseUnrecognized : MetabolicPhase :=
  { phase := "Unknown"
    expected_pattern := "Unpredictable"
    is_critical_window := false
    special_notes := "unrecognized meal timing pattern" }

/-- Embeds `determine_metabolic_phase(meal_timing)` (context_service.py lines 1-61).
`none` embeds Python `None`; `if not meal_timing` is true for `None` and
for the empty string; the dictionary `phases` is embedded as the chain of
key comparisons below, with the `.get` default last. -/
def determine_metabolic_phase (meal_timing : Option String) : MetabolicPhase :=
  match meal_timing with
  | none => phaseNoTiming
  | some s =>
    if s = "" then phaseNoTiming
    else if s = "Currently eating/just finished (0-30 min)" then
      { phase := "Early Postprandial"
        expected_pattern := "Initial glucose rise"
        is_critical_window := false
        special_notes := "early insulin response phase, voice may show stress markers" }
    else if s = "30 minutes to 1 hour ago" then
      { phase := "Early Postprandial"
        expected_pattern := "Glucose rising"
        is_critical_window := false
        special_notes := "early postprandial phase, glucose beginning to rise" }
    else if s = "1-2 hours ago" then
      { phase := "Peak Postprandial"
        expected_pattern := "Glucose at or near peak"
        is_critical_window := true
        special_notes := "peak postprandial glucose phase (most critical for detection)" }
    else if s = "2-4 hours ago" then
      { phase := "Late Postprandial"
        expected_pattern := "Glucose normalizing"
        is_critical_window := false
        special_notes := "late postprandial, glucose normalizing in healthy individuals" }
    else if s = "4-8 hours ago" then
      { phase := "Post-absorptive"
        expected_pattern := "Return to baseline"
        is_critical_window := false
        special_notes := "return to baseline, fasting-like state" }
    else if s = "8+ hours/overnight fasting" then
      { phase := "Fasting"
        expected_pattern := "Baseline glucose levels"
        is_critical_window := false
        special_notes := "true fasting state, baseline glucose patterns" }
    else if s = "I don\x27t remember" then
      { phase := "Unknown"
        expected_pattern := "Unpredictable"
        is_critical_window := false
        special_notes := "uncertainty flag, reduced confidence in predictions" }
    else phaseUnrecognized

/-- The seven keys of the `phases` dictionary. -/
def metabolicPhaseKeys : List String :=
  [ "Currently eating/just finished (0-30 min)"
  , "30 minutes to 1 hour ago"
  , "1-2 hours ago"
  , "2-4 hours ago"
  , "4-8 hours ago"
  , "8+ hours/overnight fasting"
  , "I don\x27t remember" ]

/-- Return record of `analyze_symptom_constellation`. -/
structure SymptomCluster where
  cluster_type : String
  direction : String
  urgency : String
deriving DecidableEq, Repr

/-- The asymptomatic record (context_service.py lines 65-70). -/
def asymptomaticCluster : SymptomCluster :=
  { cluster_type := "Asymptomatic", direction := "Neutral", urgency := "Low" }

/-- Embeds `hyperglycemia_symptoms` (lines 73-77). -/
def hyperglycemia_symptoms : List String :=
  ["Unusual thirst or dry mouth", "Frequent urination", "Blurred vision"]

/-- Embeds `hypoglycemia_symptoms` (lines 79-82). -/
def hypoglycemia_symptoms : List String :=
  ["Shakiness or tremors", "Confusion or difficulty concentrating"]

/-- Embeds `nonspecific_symptoms` (lines 84-87). -/
def nonspecific_symptoms : List String :=
  ["Fatigue or drowsiness", "Nausea or vomiting"]

/-- Embeds `sum(1 for s in symptoms if s in group)`. -/
def countIn (group symptoms : List String) : Nat :=
  (symptoms.filter (fun s => group.contains s)).length

/-- Embeds `hyper_count` (line 90). -/
def hyper_count (symptoms : List String) : Nat :=
  countIn hyperglycemia_symptoms symptoms

/-- Embeds `hypo_count` (line 91). -/
def hypo_count (symptoms : List String) : Nat :=
  countIn hypoglycemia_symptoms symptoms

/-- Embeds `nonspecific_count` (line 92); computed by the source but used nowhere. -/
def nonspecific_count (symptoms : List String) : Nat :=
  countIn nonspecific_symptoms symptoms

/-- Embeds `analyze_symptom_constellation(symptoms)` (context_service.py lines
63-122). `none` embeds Python `None`; `if not symptoms or len(symptoms) == 0`
is true for `None` and the empty list. The urgency override
(`if "Confusion or difficulty concentrating" in symptoms: urgency = "High"`)
is written as the outer conditional of `urgency`, which is the same value. -/
def analyze_symptom_constellation (symptoms : Option (List String)) : SymptomCluster :=
  match symptoms with
  | none => asymptomaticCluster
  | some l =>
    if l.isEmpty then asymptomaticCluster
    else
      { cluster_type :=
          if hyper_count l > hypo_count l then "Hyperglycemia Cluster"
          else if hypo_count l > hyper_count l then "Hypoglycemia Cluster"
          else "Mixed Symptom Cluster"
        direction :=
          if hyper_count l > hypo_count l then "Hyperglycemic"
          else if hypo_count l > hyper_count l then "Hypoglycemic"
          else "Mixed"
        urgency :=
          if "Confusion or difficulty concentrating" ∈ l then "High"
          else if l.length ≥ 3 then "High"
          else if l.length = 2 then "Moderate"
          else "Low" }

/-! ### Embedding extractor (`app/agents/embedding_extractor.py`) -/

/-- The final length normalisation shared by both extraction paths
(lines 61-67 and lines 95-99): truncate above 512, zero-pad below. -/
def fitTo512 (v : List ℚ) : List ℚ :=
  if v.length > 512 then v.take 512
  else if v.length < 512 then v ++ List.replicate (512 - v.length) 0
  else v

/-- Embeds `_extract_with_wav2vec` (lines 42-68) after the external model call:
`embeddings` is the time-averaged hidden-state vector returned by the
pretrained model, passed in here as data. -/
def extract_with_wav2vec (embeddings : List ℚ) : List ℚ :=
  fitTo512 embeddings

/-- Embeds `_extract_fallback_features` (lines 70-101) after the librosa calls:
the six averaged feature blocks (40 MFCC means, centroid, bandwidth,
rolloff, contrast, chroma means) are passed in as data and concatenated
exactly as `np.concatenate` does, then length-normalised. -/
def extract_fallback_features
    (mfcc cent bw rolloff contrast chroma : List ℚ) : List ℚ :=
  fitTo512 (mfcc ++ cent ++ bw ++ rolloff ++ contrast ++ chroma)

/-! ### JSON values (results of Python `json.loads`) -/

/-- JSON values as produced by `json.loads`. An `obj` is the association
list of a Python dict (keys unique, insertion order kept). -/
inductive Json where
  | null : Json
  | bool (b : Bool) : Json
  | num (q : ℚ) : Json
  | str (s : String) : Json
  | arr (elems : List Json) : Json
  | obj (fields : List (String × Json)) : Json

/-- Fields of a JSON object, i.e. the body of a Python dict. -/
abbrev JsonObj := List (String × Json)

/-- Embeds `k in d` / `d[k]` on a Python dict: the value at key `k`. -/
def lookupKey (fields : JsonObj) (k : String) : Option Json :=
  match fields with
  | [] => none
  | (k2, v) :: rest => if k2 = k then some v else lookupKey rest k

/-- Embeds `if k not in d: d[k] = v` on a Python dict: append `(k, v)` only
when the key is absent. -/
def ensureKey (fields : JsonObj) (k : String) (v : Json) : JsonObj :=
  match lookupKey fields k with
  | some _ => fields
  | none => fields ++ [(k, v)]

/-- Embeds `d[k] = v` on a Python dict whose key `k` is already present:
replace the value in place. -/
def setKey (fields : JsonObj) (k : String) (v : Json) : JsonObj :=
  match fields with
  | [] => []
  | (k2, v2) :: rest => if k2 = k then (k2, v) :: rest else (k2, v2) :: setKey rest k v

/-- Python truthiness of a JSON value (`if not x` is true exactly when
`isFalsy x`). -/
def Json.isFalsy : Json → Bool
  | Json.null => true
  | Json.bool b => !b
  | Json.num q => q = 0
  | Json.str s => s = ""
  | Json.arr elems => elems.isEmpty
  | Json.obj fields => fields.isEmpty

/-! ### Inference gateway (`app/agents/claude_inference.py`) -/

/-- Embeds `ClaudeInferenceAgent._generate_fallback_response` (lines 282-306):
the single fallback constant of the gateway. -/
def fallbackResponse : JsonObj :=
  [ ("glucose_assessment", Json.obj
      [ ("primary_estimate", Json.str "normal")
      , ("estimated_range", Json.str "80-120 mg/dL")
      , ("confidence_score", Json.num (3/10))
      , ("risk_level", Json.str "minimal") ])
  , ("analysis_details", Json.obj
      [ ("voice_biomarkers_detected", Json.arr [Json.str "baseline vocal patterns"])
      , ("supporting_context", Json.str "Limited analysis due to API error")
      , ("conflicting_signals", Json.str "Unable to process voice data completely")
      , ("quality_factors", Json.str "Analysis compromised due to technical issues") ])
  , ("clinical_insights", Json.obj
      [ ("immediate_recommendations", Json.str "Please try again or use traditional glucose monitoring")
      , ("monitoring_suggestions", Json.str "Continue with your regular monitoring schedule")
      , ("medical_consultation", Json.str "Follow your healthcare provider\x27s advice") ])
  , ("limitations", Json.obj
      [ ("confidence_factors", Json.str "Technical error in processing")
      , ("disclaimer", Json.str "This is an experimental technology and should not replace traditional glucose monitoring") ]) ]

/-- The four required top-level sections (line 271). -/
def requiredSections : List String :=
  ["glucose_assessment", "analysis_details", "clinical_insights", "limitations"]

/-- Second half of `_validate_response` (lines 276-280): default
`primary_estimate` and `confidence_score` inside the (now present)
`glucose_assessment` section. The source mutates the parsed dict and
raises `TypeError` (caught by `parse_response`, which then falls back)
when the `glucose_assessment` value is not a dict and an inserted
default is assigned into it; that error path is the `none` result here.
(The exotic Python cases where a non-dict `glucose_assessment` value
happens to contain both key names, so that no assignment is attempted,
are not modelled; no property below touches them.) -/
def validateGA (r : JsonObj) : Option JsonObj :=
  match lookupKey r "glucose_assessment" with
  | some (Json.obj g) =>
      some (setKey r "glucose_assessment" (Json.obj
        (ensureKey (ensureKey g "primary_estimate" (Json.str "normal"))
          "confidence_score" (Json.num (1/2)))))
  | some _ => none
  | none => some r

/-- First half of `_validate_response` (the `for section in
required_sections` loop, lines 271-274): insert an empty dict for each
absent top-level section, in loop order. -/
def ensureSections (fs : JsonObj) : JsonObj :=
  ensureKey
    (ensureKey
      (ensureKey
        (ensureKey fs "glucose_assessment" (Json.obj []))
        "analysis_details" (Json.obj []))
      "clinical_insights" (Json.obj []))
    "limitations" (Json.obj [])

/-- The body of `_validate_response` (lines 269-280): the section
insertions followed by the `glucose_assessment` defaulting. -/
def validateResponse (response : JsonObj) : Option JsonObj :=
  validateGA (ensureSections response)

/-- The opening-brace character, written by code point. -/
def openBrace : Char := Char.ofNat 123

/-- The closing-brace character, written by code point. -/
def closeBrace : Char := Char.ofNat 125

/-- Index of the first occurrence of `c` in `s` (Python `s.find(c)`,
with `none` for the `-1` not-found result). -/
def strFind (s : List Char) (c : Char) : Option Nat :=
  s.findIdx? (fun c2 => c2 = c)

/-- Index of the last occurrence of `c` in `s` (Python `s.rfind(c)`,
with `none` for the `-1` not-found result). -/
def strRFind (s : List Char) (c : Char) : Option Nat :=
  (s.reverse.findIdx? (fun c2 => c2 = c)).map (fun i => s.length - 1 - i)

/-- Python slice `s[a:b]`. -/
def strSlice (s : List Char) (a b : Nat) : List Char :=
  (s.drop a).take (b - a)

/-- Embeds `ClaudeInferenceAgent.parse_response` (lines 249-267). The response is
`none` when `call_claude` failed (it catches its exception and returns
`None`, lines 245-247). `loads` is Python `json.loads` restricted to the
use the gateway makes of it: it returns the fields of the parsed top-level dict, and
`none` both when the text is not valid JSON (`json.loads` raises, caught
at line 265) and when the top level is not a dict (then
`_validate_response` raises `TypeError` on it, caught at the same line;
both cases end in the same fallback). -/
def parse_response (loads : List Char → Option JsonObj)
    (claude_response : Option (List Char)) : JsonObj :=
  match claude_response with
  | none => fallbackResponse
  | some s =>
    if s.isEmpty then fallbackResponse
    else
      match strFind s openBrace, strRFind s closeBrace with
      | some json_start, some jlast =>
        if json_start < jlast + 1 then
          match loads (strSlice s json_start (jlast + 1)) with
          | some parsed =>
            match validateResponse parsed with
            | some validated => validated
            | none => fallbackResponse
          | none => fallbackResponse
        else fallbackResponse
      | some _, none => fallbackResponse
      | none, _ => fallbackResponse

/-! ### Response synthesizer (`app/agents/voice_synthesis.py`) -/

/-- Embeds `d.get(k, default)` on a Python dict. -/
def getKeyD (fields : JsonObj) (k : String) (d : Json) : Json :=
  (lookupKey fields k).getD d

/-- Embeds `self.voice_ids["serious_medical_voice"]` (line 17). -/
def serious_medical_voice : String := "21m00Tcm4TlvDq8ikWAM"

/-- Embeds `self.voice_ids["confident_assistant"]` (line 18). -/
def confident_assistant : String := "D38z5RcWu1voky8WS1ja"

/-- Embeds `self.voice_ids["cautious_assistant"]` (line 19). -/
def cautious_assistant : String := "pNInz6obpgDQGcFmaJgB"

/-- The `voice_config` dict built in `create_voice_script`. -/
structure VoiceConfig where
  voice_id : String
  stability : ℚ
  clarity : ℚ
deriving DecidableEq, Repr

/-- Embeds `voice_config` of the high/critical branch (lines 50-54). -/
def seriousVoiceConfig : VoiceConfig :=
  { voice_id := serious_medical_voice, stability := 8/10, clarity := 9/10 }

/-- Embeds `voice_config` of the high-confidence branch (lines 66-70). -/
def confidentVoiceConfig : VoiceConfig :=
  { voice_id := confident_assistant, stability := 7/10, clarity := 8/10 }

/-- Embeds `voice_config` of the low-confidence and of the exception branch
(lines 83-87 and 103-107). -/
def cautiousVoiceConfig : VoiceConfig :=
  { voice_id := cautious_assistant, stability := 6/10, clarity := 7/10 }

/-- The script text of `create_voice_script`, embedded structurally: each
constructor is one of the three f-string templates (lines 55-63, 71-80,
88-96) carrying exactly the values interpolated into it, and `fallback`
is the fixed apology string of the exception handler (line 103). The
numeric presentation of `confidence*100` is display-only and not
modelled. -/
inductive Script where
  | urgent (risk_level estimate : Json) (confidence : ℚ)
      (immediate_recommendations : Json) : Script
  | informative (estimate : Json) (confidence : ℚ)
      (immediate_recommendations monitoring_suggestions : Json) : Script
  | hedged (estimate : Json) (confidence : ℚ)
      (confidence_factors : Json) : Script
  | fallback : Script

/-- Embeds `risk_level in ["high", "critical"]`: true only for those two
strings, false for every other Python value. -/
def isHighRisk : Json → Bool
  | Json.str r => r = "high" || r = "critical"
  | _ => false

/-- The `(script, voice_config)` pair of the exception handler
(lines 100-107). -/
def fallbackScriptPair : Script × VoiceConfig :=
  (Script.fallback, cautiousVoiceConfig)

/-- Embeds `VoiceSynthesisAgent.create_voice_script` (lines 42-107). The three
`claude_output["glucose_assessment"][...]` accesses (lines 45-47), and
the `["clinical_insights"]` / `["limitations"]` access of the branch
taken, raise `KeyError`/`TypeError`/`AttributeError` when the key is
absent or the value is not a dict; the handler (lines 100-107) turns
every such error into the fallback pair. A non-numeric
`confidence_score` raises in each branch at the `confidence*100`
interpolation, with the same handler (a Python `bool` would format —
that corner is not modelled; no property below touches it). -/
def create_voice_script (claude_output : Json) : Script × VoiceConfig :=
  match claude_output with
  | Json.obj fields =>
    match lookupKey fields "glucose_assessment" with
    | some (Json.obj ga) =>
      match lookupKey ga "confidence_score",
            lookupKey ga "risk_level",
            lookupKey ga "primary_estimate" with
      | some (Json.num confidence), some risk_level, some estimate =>
        if isHighRisk risk_level then
          match lookupKey fields "clinical_insights" with
          | some (Json.obj ci) =>
            (Script.urgent risk_level estimate confidence
              (getKeyD ci "immediate_recommendations"
                (Json.str "Please monitor your glucose levels.")),
             seriousVoiceConfig)
          | _ => fallbackScriptPair
        else if confidence > 7/10 then
          match lookupKey fields "clinical_insights" with
          | some (Json.obj ci) =>
            (Script.informative estimate confidence
              (getKeyD ci "immediate_recommendations"
                (Json.str "Continue monitoring your glucose levels."))
              (getKeyD ci "monitoring_suggestions"
                (Json.str "Pay attention to any changes in how you feel.")),
             confidentVoiceConfig)
          | _ => fallbackScriptPair
        else
          match lookupKey fields "limitations" with
          | some (Json.obj lim) =>
            (Script.hedged estimate confidence
              (getKeyD lim "confidence_factors"
                (Json.str "Several factors affected the analysis quality.")),
             cautiousVoiceConfig)
          | _ => fallbackScriptPair
      | _, _, _ => fallbackScriptPair
    | _ => fallbackScriptPair
  | _ => fallbackScriptPair

/-- Embeds `VoiceSynthesisAgent.synthesize_voice` (lines 109-127). The external
`text_to_speech` call is passed in as its result: `some ()` when the
service returned audio, `none` when it raised (the handler at lines
125-127 returns `None`). On success the source returns the placeholder
storage URL built from the current timestamp, passed in as data. -/
def synthesize_voice (tts_result : Option Unit) (timestamp : String) : Option String :=
  match tts_result with
  | some _ => some ("https://storage.example.com/voice_responses/" ++ timestamp ++ ".mp3")
  | none => none

/-- The dict returned by `synthesize_response`: the missing-prediction
branch carries an error with null audio and null script (lines 27-31),
the normal branch carries the audio reference and the script. -/
structure SynthesisResult where
  error : Option String
  voice_response : Option String
  voice_script : Option Script

/-- Embeds `VoiceSynthesisAgent.synthesize_response` (lines 24-40).
`prediction` is the dict argument (`none` embeds Python `None`);
`if not prediction or not prediction.get("glucose_prediction")` is true
when the dict is missing or empty, when the key is absent (`.get`
returns `None`), and when its value is falsy. -/
def synthesize_response (tts_result : Option Unit) (timestamp : String)
    (prediction : Option JsonObj) : SynthesisResult :=
  match prediction with
  | none => { error := some "Missing glucose prediction", voice_response := none, voice_script := none }
  | some p =>
    if p.isEmpty then
      { error := some "Missing glucose prediction", voice_response := none, voice_script := none }
    else
      match lookupKey p "glucose_prediction" with
      | none => { error := some "Missing glucose prediction", voice_response := none, voice_script := none }
      | some gp =>
        if gp.isFalsy then
          { error := some "Missing glucose prediction", voice_response := none, voice_script := none }
        else
          { error := none
            voice_response := synthesize_voice tts_result timestamp
            voice_script := some (create_voice_script gp).1 }

/-! ### Audio quality assessor (`app/agents/audio_processor.py`) -/

/-- Embeds `np.mean(waveform ** 2)` (line 52): the signal power. For the empty
waveform the rational division by `0` yields `0`, while numpy yields
`nan`; both fail the `noise_estimate > 0` test below, so the embedded
branch taken is the same. -/
def signal_power (waveform : List ℚ) : ℚ :=
  ((waveform.map (fun x => x ^ 2)).sum) / waveform.length

/-- Embeds `np.mean(waveform)`. -/
def sampleMean (waveform : List ℚ) : ℚ :=
  waveform.sum / waveform.length

/-- Embeds `np.var(waveform)`: the mean squared deviation from the mean. -/
def sampleVar (waveform : List ℚ) : ℚ :=
  ((waveform.map (fun x => (x - sampleMean waveform) ^ 2)).sum) / waveform.length

/-- Embeds `np.var(waveform) * 0.1` (line 53): the noise estimate. -/
def noise_estimate (waveform : List ℚ) : ℚ :=
  sampleVar waveform * (1/10)

/-- Embeds `10 * np.log10(signal_power / noise_estimate) if noise_estimate > 0
else 30.0` (line 54). `log10` is the external numpy function, passed
in as data; it is applied only in the guarded branch. -/
def snr_db (log10 : ℚ → ℚ) (waveform : List ℚ) : ℚ :=
  if noise_estimate waveform > 0 then
    10 * log10 (signal_power waveform / noise_estimate waveform)
  else 30

/-- Python `int()`: truncation toward zero. -/
def pyInt (q : ℚ) : ℤ :=
  if q < 0 then Int.ceil q else Int.floor q

/-- Embeds `min(100, max(0, int(np.mean(cent) / 50)))` (line 58); the librosa
spectral-centroid mean is passed in as data. -/
def clarity_score (mean_cent : ℚ) : ℤ :=
  min 100 (max 0 (pyInt (mean_cent / 50)))

/-- Embeds `min(100, max(0, int(100 - np.mean(spec_bw) / 100)))` (line 62); the
librosa spectral-bandwidth mean is passed in as data. -/
def spectral_quality_score (mean_spec_bw : ℚ) : ℤ :=
  min 100 (max 0 (pyInt (100 - mean_spec_bw / 100)))

/-- The dict returned by `assess_quality` (lines 64-69). -/
structure QualityMetrics where
  snr : ℚ
  duration : ℚ
  clarity : ℤ
  spectral_quality : ℤ
deriving DecidableEq, Repr

/-- Embeds `AudioProcessorAgent.assess_quality` (lines 46-69). The waveform is
the preprocessed sample list; `duration` is carried over from the
preprocessing dict; `mean_cent` and `mean_spec_bw` are the means of the
librosa spectral centroid and bandwidth frames, passed in as data. The
same formulas appear in `supabase_service._assess_audio_quality`
(lines 196-208). -/
def assess_quality (log10 : ℚ → ℚ) (waveform : List ℚ)
    (duration mean_cent mean_spec_bw : ℚ) : QualityMetrics :=
  { snr := snr_db log10 waveform
    duration := duration
    clarity := clarity_score mean_cent
    spectral_quality := spectral_quality_score mean_spec_bw }

/-! ### Helper lemmas -/

theorem fitTo512_length (v : List ℚ) : (fitTo512 v).length = 512 := by
  unfold fitTo512
  split_ifs with h1 h2
  · simp only [List.length_take]
    omega
  · simp only [List.length_append, List.length_replicate]
    omega
  · omega

theorem noise_estimate_replicate (n : ℕ) (c : ℚ) :
    noise_estimate (List.replicate n c) = 0 := by
  rcases Nat.eq_zero_or_pos n with h | h
  · subst h
    simp [noise_estimate, sampleVar, sampleMean]
  · have hn : (n : ℚ) ≠ 0 := Nat.cast_ne_zero.mpr (by omega)
    have hmean : sampleMean (List.replicate n c) = c := by
      unfold sampleMean
      rw [List.sum_replicate, List.length_replicate, nsmul_eq_mul]
      field_simp
    unfold noise_estimate sampleVar
    rw [hmean]
    simp [List.map_replicate]

theorem lookupKey_append_of_none {fs : JsonObj} {k : String} (gs : JsonObj)
    (h : lookupKey fs k = none) : lookupKey (fs ++ gs) k = lookupKey gs k := by
  induction fs with
  | nil => rfl
  | cons hd tl ih =>
    obtain ⟨k2, v⟩ := hd
    simp only [List.cons_append, lookupKey] at h ⊢
    split_ifs at h ⊢ with hk
    · exact ih h

theorem lookupKey_append_of_some {fs : JsonObj} {k : String} {v : Json} (gs : JsonObj)
    (h : lookupKey fs k = some v) : lookupKey (fs ++ gs) k = some v := by
  induction fs with
  | nil => simp [lookupKey] at h
  | cons hd tl ih =>
    obtain ⟨k2, w⟩ := hd
    simp only [List.cons_append, lookupKey] at h ⊢
    split_ifs at h ⊢ with hk
    · exact h
    · exact ih h

theorem lookupKey_ensureKey_self (fs : JsonObj) (k : String) (v : Json) :
    lookupKey (ensureKey fs k v) k = some ((lookupKey fs k).getD v) := by
  rcases h : lookupKey fs k with _ | w
  · simp only [ensureKey, h, Option.getD_none]
    rw [lookupKey_append_of_none _ h]
    simp [lookupKey]
  · simp only [ensureKey, h, Option.getD_some]

theorem lookupKey_ensureKey_ne (fs : JsonObj) (k k2 : String) (v : Json) (h : k ≠ k2) :
    lookupKey (ensureKey fs k v) k2 = lookupKey fs k2 := by
  rcases hh : lookupKey fs k with _ | w
  · simp only [ensureKey, hh]
    rcases h3 : lookupKey fs k2 with _ | w2
    · rw [lookupKey_append_of_none _ h3]
      simp [lookupKey, h]
    · rw [lookupKey_append_of_some _ h3]
  · simp only [ensureKey, hh]

theorem lookupKey_setKey_self (fs : JsonObj) (k : String) (v w : Json)
    (h : lookupKey fs k = some w) : lookupKey (setKey fs k v) k = some v := by
  induction fs with
  | nil => simp [lookupKey] at h
  | cons hd tl ih =>
    obtain ⟨k2, v2⟩ := hd
    by_cases hk : k2 = k
    · simp [setKey, lookupKey, hk]
    · simp only [setKey, lookupKey, if_neg hk] at h ⊢
      exact ih h

theorem lookupKey_setKey_ne (fs : JsonObj) (k k2 : String) (v : Json) (h : k ≠ k2) :
    lookupKey (setKey fs k v) k2 = lookupKey fs k2 := by
  induction fs with
  | nil => rfl
  | cons hd tl ih =>
    obtain ⟨k3, v3⟩ := hd
    simp only [setKey]
    by_cases hk : k3 = k
    · rw [if_pos hk]
      have hk32 : k3 ≠ k2 := by rw [hk]; exact h
      simp only [lookupKey, if_neg hk32]
    · rw [if_neg hk]
      simp only [lookupKey]
      by_cases hk2 : k3 = k2
      · rw [if_pos hk2, if_pos hk2]
      · rw [if_neg hk2, if_neg hk2]
        exact ih

theorem ne_lim_ga : ("limitations" : String) ≠ "glucose_assessment" := by decide

theorem ne_ci_ga : ("clinical_insights" : String) ≠ "glucose_assessment" := by decide

theorem ne_ad_ga : ("analysis_details" : String) ≠ "glucose_assessment" := by decide

theorem ne_lim_ad : ("limitations" : String) ≠ "analysis_details" := by decide

theorem ne_ci_ad : ("clinical_insights" : String) ≠ "analysis_details" := by decide

theorem ne_ga_ad : ("glucose_assessment" : String) ≠ "analysis_details" := by decide

theorem ne_lim_ci : ("limitations" : String) ≠ "clinical_insights" := by decide

theorem ne_ad_ci : ("analysis_details" : String) ≠ "clinical_insights" := by decide

theorem ne_ga_ci : ("glucose_assessment" : String) ≠ "clinical_insights" := by decide

theorem ne_ci_lim : ("clinical_insights" : String) ≠ "limitations" := by decide

theorem ne_ad_lim : ("analysis_details" : String) ≠ "limitations" := by decide

theorem ne_ga_lim : ("glucose_assessment" : String) ≠ "limitations" := by decide

theorem ne_cs_pe : ("confidence_score" : String) ≠ "primary_estimate" := by decide

theorem ne_pe_cs : ("primary_estimate" : String) ≠ "confidence_score" := by decide

theorem ensureSections_ga (fs : JsonObj) :
    lookupKey (ensureSections fs) "glucose_assessment" =
      some ((lookupKey fs "glucose_assessment").getD (Json.obj [])) := by
  unfold ensureSections
  rw [lookupKey_ensureKey_ne _ _ _ _ ne_lim_ga,
      lookupKey_ensureKey_ne _ _ _ _ ne_ci_ga,
      lookupKey_ensureKey_ne _ _ _ _ ne_ad_ga,
      lookupKey_ensureKey_self]

theorem ensureSections_ad (fs : JsonObj) :
    lookupKey (ensureSections fs) "analysis_details" =
      some ((lookupKey fs "analysis_details").getD (Json.obj [])) := by
  unfold ensureSections
  rw [lookupKey_ensureKey_ne _ _ _ _ ne_lim_ad,
      lookupKey_ensureKey_ne _ _ _ _ ne_ci_ad,
      lookupKey_ensureKey_self,
      lookupKey_ensureKey_ne _ _ _ _ ne_ga_ad]

theorem ensureSections_ci (fs : JsonObj) :
    lookupKey (ensureSections fs) "clinical_insights" =
      some ((lookupKey fs "clinical_insights").getD (Json.obj [])) := by
  unfold ensureSections
  rw [lookupKey_ensureKey_ne _ _ _ _ ne_lim_ci,
      lookupKey_ensureKey_self,
      lookupKey_ensureKey_ne _ _ _ _ ne_ad_ci,
      lookupKey_ensureKey_ne _ _ _ _ ne_ga_ci]

theorem ensureSections_lim (fs : JsonObj) :
    lookupKey (ensureSections fs) "limitations" =
      some ((lookupKey fs "limitations").getD (Json.obj [])) := by
  unfold ensureSections
  rw [lookupKey_ensureKey_self,
      lookupKey_ensureKey_ne _ _ _ _ ne_ci_lim,
      lookupKey_ensureKey_ne _ _ _ _ ne_ad_lim,
      lookupKey_ensureKey_ne _ _ _ _ ne_ga_lim]

theorem validateResponse_eq (fs g0 : JsonObj)
    (h : (lookupKey fs "glucose_assessment").getD (Json.obj []) = Json.obj g0) :
    validateResponse fs = some (setKey (ensureSections fs) "glucose_assessment"
      (Json.obj (ensureKey (ensureKey g0 "primary_estimate" (Json.str "normal"))
        "confidence_score" (Json.num (1/2))))) := by
  have e_ga : lookupKey (ensureSections fs) "glucose_assessment" = some (Json.obj g0) := by
    rw [ensureSections_ga, h]
  simp only [validateResponse, validateGA, e_ga]

/-! ### Claims -/

/-- C1: for every input, the embedding extractor returns exactly 512
values on both paths: the pretrained-model path and the fallback
spectral-feature path each truncate a longer raw vector to its first 512
entries and zero-pad a shorter one, so the output length is always 512. -/
theorem C1_extractor_output_length_512
    (embeddings mfcc cent bw rolloff contrast chroma : List ℚ) :
    (extract_with_wav2vec embeddings).length = 512 ∧
    (extract_fallback_features mfcc cent bw rolloff contrast chroma).length = 512 :=
  ⟨fitTo512_length embeddings, fitTo512_length _⟩

/-- C8: for every waveform (and every value of the librosa spectral
means), the clarity and spectral-quality scores of the audio quality assessor
lie in [0, 100]. -/
theorem C8_quality_scores_bounded (log10 : ℚ → ℚ) (waveform : List ℚ)
    (duration mean_cent mean_spec_bw : ℚ) :
    0 ≤ (assess_quality log10 waveform duration mean_cent mean_spec_bw).clarity ∧
    (assess_quality log10 waveform duration mean_cent mean_spec_bw).clarity ≤ 100 ∧
    0 ≤ (assess_quality log10 waveform duration mean_cent mean_spec_bw).spectral_quality ∧
    (assess_quality log10 waveform duration mean_cent mean_spec_bw).spectral_quality ≤ 100 := by
  refine ⟨?_, ?_, ?_, ?_⟩ <;>
    simp only [assess_quality, clarity_score, spectral_quality_score] <;> omega

/-- C9: the SNR is `10·log10(signal_power / noise_estimate)` (with
`signal_power` the mean of squared samples and `noise_estimate` the
sample variance times 0.1) only when the noise estimate is positive, and
the constant 30.0 dB otherwise, so the division and logarithm are never
evaluated with a non-positive denominator; in particular every constant
(degenerate or silent) waveform gets SNR 30.0. -/
theorem C9_snr_guarded (log10 : ℚ → ℚ) (waveform : List ℚ)
    (duration mean_cent mean_spec_bw : ℚ) :
    (0 < noise_estimate waveform →
      (assess_quality log10 waveform duration mean_cent mean_spec_bw).snr =
        10 * log10 (signal_power waveform / noise_estimate waveform)) ∧
    (¬ 0 < noise_estimate waveform →
      (assess_quality log10 waveform duration mean_cent mean_spec_bw).snr = 30) ∧
    (∀ (n : ℕ) (c : ℚ),
      (assess_quality log10 (List.replicate n c) duration mean_cent mean_spec_bw).snr = 30) := by
  refine ⟨fun h => ?_, fun h => ?_, fun n c => ?_⟩
  · simp only [assess_quality, snr_db, if_pos h]
  · simp only [assess_quality, snr_db, if_neg h]
  · simp only [assess_quality, snr_db, noise_estimate_replicate]
    norm_num

/-- Witness for C9 at the waveform [0, 1] (noise estimate 1/40 > 0) and
the constant-1 stand-in for log10. -/
theorem C9_snr_guarded_witness :
    0 < noise_estimate [0, 1] ∧
    (assess_quality (fun _ => (1 : ℚ)) [0, 1] 0 0 0).snr = 10 := by
  have h : 0 < noise_estimate [0, 1] := by
    norm_num [noise_estimate, sampleVar, sampleMean]
  exact ⟨h, ((C9_snr_guarded (fun _ => (1 : ℚ)) [0, 1] 0 0 0).1 h).trans (by norm_num)⟩

/-- C4: the symptom-cluster scorer returns Asymptomatic/Neutral/Low for a
missing or empty list; otherwise direction is Hyperglycemic when the
hyper-group count exceeds the hypo-group count, Hypoglycemic when hypo
exceeds hyper, Mixed on a tie; urgency is Low for total count 0-1,
Moderate for 2, High for 3 or more, and is forced to High whenever
"Confusion or difficulty concentrating" is present. In particular
["Shakiness or tremors", "Confusion or difficulty concentrating"] yields
direction Hypoglycemic and urgency High. -/
theorem C4_symptom_cluster (l : List String) (hne : l ≠ []) :
    analyze_symptom_constellation none = asymptomaticCluster ∧
    analyze_symptom_constellation (some []) = asymptomaticCluster ∧
    (hyper_count l > hypo_count l →
      (analyze_symptom_constellation (some l)).direction = "Hyperglycemic") ∧
    (hypo_count l > hyper_count l →
      (analyze_symptom_constellation (some l)).direction = "Hypoglycemic") ∧
    (hyper_count l = hypo_count l →
      (analyze_symptom_constellation (some l)).direction = "Mixed") ∧
    ("Confusion or difficulty concentrating" ∈ l →
      (analyze_symptom_constellation (some l)).urgency = "High") ∧
    ("Confusion or difficulty concentrating" ∉ l →
      (l.length ≥ 3 → (analyze_symptom_constellation (some l)).urgency = "High") ∧
      (l.length = 2 → (analyze_symptom_constellation (some l)).urgency = "Moderate") ∧
      (l.length ≤ 1 → (analyze_symptom_constellation (some l)).urgency = "Low")) ∧
    analyze_symptom_constellation
        (some ["Shakiness or tremors", "Confusion or difficulty concentrating"]) =
      { cluster_type := "Hypoglycemia Cluster"
        direction := "Hypoglycemic"
        urgency := "High" } := by
  have hle : l.isEmpty = false := by
    cases l with
    | nil => exact absurd rfl hne
    | cons a t => rfl
  refine ⟨rfl, rfl, fun h => ?_, fun h => ?_, fun h => ?_, fun h => ?_, fun h => ?_, by decide⟩
  · simp [analyze_symptom_constellation, hle, h]
  · simp [analyze_symptom_constellation, hle, h, Nat.lt_asymm h]
  · simp [analyze_symptom_constellation, hle, h]
  · simp [analyze_symptom_constellation, hle, h]
  · refine ⟨fun h3 => ?_, fun h2 => ?_, fun h1 => ?_⟩
    · simp [analyze_symptom_constellation, hle, h, h3]
    · simp [analyze_symptom_constellation, hle, h, h2]
    · have h3 : ¬ l.length ≥ 3 := by omega
      have h2 : ¬ l.length = 2 := by omega
      simp [analyze_symptom_constellation, hle, h, h3, h2]

/-- Witness for C4 at the singleton hyper-group list ["Blurred vision"]. -/
theorem C4_symptom_cluster_witness :
    hyper_count ["Blurred vision"] > hypo_count ["Blurred vision"] ∧
    (analyze_symptom_constellation (some ["Blurred vision"])).direction = "Hyperglycemic" :=
  ⟨by decide, (C4_symptom_cluster ["Blurred vision"] (by decide)).2.2.1 (by decide)⟩

/-- C5: the meal-timing scorer is a total lookup over a fixed 7-entry
table: the empty string, None, and any unrecognized string return phase
"Unknown" with is_critical_window false; "1-2 hours ago" returns phase
"Peak Postprandial" with is_critical_window true, and is the only input
with is_critical_window true. -/
theorem C5_metabolic_phase_table (s : String) (hs : s ∉ metabolicPhaseKeys) :
    determine_metabolic_phase none = phaseNoTiming ∧
    determine_metabolic_phase (some "") = phaseNoTiming ∧
    (determine_metabolic_phase (some s)).phase = "Unknown" ∧
    (determine_metabolic_phase (some s)).is_critical_window = false ∧
    (determine_metabolic_phase (some "1-2 hours ago")).phase = "Peak Postprandial" ∧
    (determine_metabolic_phase (some "1-2 hours ago")).is_critical_window = true ∧
    (∀ m : Option String,
      (determine_metabolic_phase m).is_critical_window = true ↔ m = some "1-2 hours ago") := by
  simp only [metabolicPhaseKeys, List.mem_cons, List.not_mem_nil, or_false, not_or] at hs
  obtain ⟨h1, h2, h3, h4, h5, h6, h7⟩ := hs
  refine ⟨rfl, rfl, ?_, ?_, rfl, rfl, fun m => ?_⟩
  · by_cases h0 : s = ""
    · simp [determine_metabolic_phase, h0, phaseNoTiming]
    · simp [determine_metabolic_phase, h0, h1, h2, h3, h4, h5, h6, h7, phaseUnrecognized]
  · by_cases h0 : s = ""
    · simp [determine_metabolic_phase, h0, phaseNoTiming]
    · simp [determine_metabolic_phase, h0, h1, h2, h3, h4, h5, h6, h7, phaseUnrecognized]
  · cases m with
    | none => simp [determine_metabolic_phase, phaseNoTiming]
    | some t =>
      by_cases ht : t = "1-2 hours ago"
      · subst ht
        simp [determine_metabolic_phase]
      · simp only [Option.some.injEq, ht, iff_false]
        intro hcrit
        apply ht
        simp only [determine_metabolic_phase] at hcrit
        split_ifs at hcrit <;> simp_all [phaseNoTiming, phaseUnrecognized]

/-- Witness for C5 at the unrecognized input "yesterday". -/
theorem C5_metabolic_phase_table_witness :
    "yesterday" ∉ metabolicPhaseKeys ∧
    (determine_metabolic_phase (some "yesterday")).phase = "Unknown" :=
  ⟨by decide, (C5_metabolic_phase_table "yesterday" (by decide)).2.2.1⟩

/-- C10: a non-empty symptom list containing no hyper-group and no
hypo-group symptom gets direction "Mixed" and cluster_type
"Mixed Symptom Cluster" (never Neutral/Asymptomatic), and the
nonspecific-symptom count has no effect on any output field: the output
is fully determined by the hyper count, the hypo count, the total
length, and whether the confusion symptom is present. -/
theorem C10_nonspecific_only_mixed (l : List String) (hne : l ≠ [])
    (hhyper : hyper_count l = 0) (hhypo : hypo_count l = 0) :
    (analyze_symptom_constellation (some l)).direction = "Mixed" ∧
    (analyze_symptom_constellation (some l)).cluster_type = "Mixed Symptom Cluster" ∧
    (analyze_symptom_constellation (some l)).direction ≠ "Neutral" ∧
    (analyze_symptom_constellation (some l)).cluster_type ≠ "Asymptomatic" ∧
    (∀ l2 l3 : List String, l2 ≠ [] → l3 ≠ [] →
      hyper_count l2 = hyper_count l3 → hypo_count l2 = hypo_count l3 →
      l2.length = l3.length →
      ("Confusion or difficulty concentrating" ∈ l2 ↔
        "Confusion or difficulty concentrating" ∈ l3) →
      analyze_symptom_constellation (some l2) = analyze_symptom_constellation (some l3)) := by
  have hle : l.isEmpty = false := by
    cases l with
    | nil => exact absurd rfl hne
    | cons a t => rfl
  refine ⟨?_, ?_, ?_, ?_, fun l2 l3 hne2 hne3 e1 e2 e3 e4 => ?_⟩
  · simp [analyze_symptom_constellation, hle, hhyper, hhypo]
  · simp [analyze_symptom_constellation, hle, hhyper, hhypo]
  · simp [analyze_symptom_constellation, hle, hhyper, hhypo]
  · simp [analyze_symptom_constellation, hle, hhyper, hhypo]
  · have hle2 : l2.isEmpty = false := by
      cases l2 with
      | nil => exact absurd rfl hne2
      | cons a t => rfl
    have hle3 : l3.isEmpty = false := by
      cases l3 with
      | nil => exact absurd rfl hne3
      | cons a t => rfl
    simp only [analyze_symptom_constellation, hle2, hle3, Bool.false_eq_true, if_false,
      e1, e2, e3, e4]

/-- Witness for C10 at the singleton nonspecific list
["Fatigue or drowsiness"]. -/
theorem C10_nonspecific_only_mixed_witness :
    hyper_count ["Fatigue or drowsiness"] = 0 ∧
    hypo_count ["Fatigue or drowsiness"] = 0 ∧
    (analyze_symptom_constellation (some ["Fatigue or drowsiness"])).direction = "Mixed" :=
  ⟨by decide, by decide,
    (C10_nonspecific_only_mixed ["Fatigue or drowsiness"] (by decide) (by decide) (by decide)).1⟩

/-- C6: for every assessment carrying its fields (and the sections the
source dereferences), script selection depends only on the assessment
fields: risk_level "high" or "critical" selects the serious profile with
the urgent template regardless of confidence_score; otherwise
confidence_score > 0.7 selects the confident profile with the
informative template; all remaining cases select the cautious profile
with the hedged template. -/
theorem C6_voice_profile_selection (fields ga ci lim : JsonObj)
    (confidence : ℚ) (risk_level estimate : Json)
    (hga : lookupKey fields "glucose_assessment" = some (Json.obj ga))
    (hconf : lookupKey ga "confidence_score" = some (Json.num confidence))
    (hrisk : lookupKey ga "risk_level" = some risk_level)
    (hest : lookupKey ga "primary_estimate" = some estimate)
    (hci : lookupKey fields "clinical_insights" = some (Json.obj ci))
    (hlim : lookupKey fields "limitations" = some (Json.obj lim)) :
    (isHighRisk risk_level = true →
      create_voice_script (Json.obj fields) =
        (Script.urgent risk_level estimate confidence
          (getKeyD ci "immediate_recommendations"
            (Json.str "Please monitor your glucose levels.")),
         seriousVoiceConfig)) ∧
    (isHighRisk risk_level = false → confidence > 7/10 →
      create_voice_script (Json.obj fields) =
        (Script.informative estimate confidence
          (getKeyD ci "immediate_recommendations"
            (Json.str "Continue monitoring your glucose levels."))
          (getKeyD ci "monitoring_suggestions"
            (Json.str "Pay attention to any changes in how you feel.")),
         confidentVoiceConfig)) ∧
    (isHighRisk risk_level = false → ¬ confidence > 7/10 →
      create_voice_script (Json.obj fields) =
        (Script.hedged estimate confidence
          (getKeyD lim "confidence_factors"
            (Json.str "Several factors affected the analysis quality.")),
         cautiousVoiceConfig)) := by
  refine ⟨fun hhigh => ?_, fun hhigh hgt => ?_, fun hhigh hgt => ?_⟩
  · simp [create_voice_script, hga, hconf, hrisk, hest, hci, hhigh]
  · simp [create_voice_script, hga, hconf, hrisk, hest, hci, hhigh, hgt]
  · simp [create_voice_script, hga, hconf, hrisk, hest, hlim, hhigh, hgt]

/-- Witness for C6: a critical-risk assessment with confidence_score 0.1
still selects the serious profile. -/
theorem C6_voice_profile_selection_witness :
    isHighRisk (Json.str "critical") = true ∧
    (create_voice_script (Json.obj
      [ ("glucose_assessment", Json.obj
          [ ("confidence_score", Json.num (1/10))
          , ("risk_level", Json.str "critical")
          , ("primary_estimate", Json.str "elevated") ])
      , ("clinical_insights", Json.obj [])
      , ("limitations", Json.obj []) ])).2 = seriousVoiceConfig := by
  refine ⟨rfl, ?_⟩
  have h := (C6_voice_profile_selection
    [ ("glucose_assessment", Json.obj
        [ ("confidence_score", Json.num (1/10))
        , ("risk_level", Json.str "critical")
        , ("primary_estimate", Json.str "elevated") ])
    , ("clinical_insights", Json.obj [])
    , ("limitations", Json.obj []) ]
    [ ("confidence_score", Json.num (1/10))
    , ("risk_level", Json.str "critical")
    , ("primary_estimate", Json.str "elevated") ]
    [] [] (1/10) (Json.str "critical") (Json.str "elevated")
    rfl rfl rfl rfl rfl rfl).1 rfl
  rw [h]

/-- C7: when the external voice-synthesis call fails for a valid glucose
prediction, the response synthesizer still returns the (non-null) script
with a null audio reference: the textual result is never dropped because
audio generation failed. -/
theorem C7_script_survives_tts_failure (timestamp : String) (p : JsonObj) (gp : Json)
    (hlk : lookupKey p "glucose_prediction" = some gp)
    (hfalsy : gp.isFalsy = false) :
    (synthesize_response none timestamp (some p)).voice_script =
      some (create_voice_script gp).1 ∧
    (synthesize_response none timestamp (some p)).voice_response = none ∧
    (synthesize_response none timestamp (some p)).error = none := by
  cases p with
  | nil => simp [lookupKey] at hlk
  | cons hd tl =>
    refine ⟨?_, ?_, ?_⟩ <;>
      simp [synthesize_response, List.isEmpty, hlk, hfalsy, synthesize_voice]

/-- Witness for C7 at a one-key prediction dict whose assessment makes
the script the urgent template. -/
theorem C7_script_survives_tts_failure_witness :
    lookupKey [("glucose_prediction", Json.obj [("x", Json.null)])] "glucose_prediction" =
      some (Json.obj [("x", Json.null)]) ∧
    (synthesize_response none "t"
      (some [("glucose_prediction", Json.obj [("x", Json.null)])])).voice_script =
      some (create_voice_script (Json.obj [("x", Json.null)])).1 ∧
    (synthesize_response none "t"
      (some [("glucose_prediction", Json.obj [("x", Json.null)])])).voice_response = none := by
  have h := C7_script_survives_tts_failure "t"
    [("glucose_prediction", Json.obj [("x", Json.null)])]
    (Json.obj [("x", Json.null)]) rfl rfl
  exact ⟨rfl, h.1, h.2.1⟩

/-- C2: for every (necessarily non-empty) response text containing a
first opening brace at index `a` and a last closing brace at index `j ≥ a`
whose enclosed substring parses as a JSON dict, the parser of the gateway
returns exactly the post-validated parse of that substring; validation
inserts each absent top-level section as an empty object, defaults
`primary_estimate` to "normal" and `confidence_score` to 0.5 inside
`glucose_assessment` when missing, and never rejects such a response for
omitting optional fields. -/
theorem C2_parse_and_validate (loads : List Char → Option JsonObj) (s : List Char)
    (a j : ℕ) (fs g : JsonObj)
    (hfind : strFind s openBrace = some a)
    (hrfind : strRFind s closeBrace = some j)
    (haj : a ≤ j)
    (hloads : loads (strSlice s a (j + 1)) = some fs)
    (hga : lookupKey fs "glucose_assessment" = none ∨
           lookupKey fs "glucose_assessment" = some (Json.obj g)) :
    ∃ out : JsonObj,
      validateResponse fs = some out ∧
      parse_response loads (some s) = out ∧
      (lookupKey out "glucose_assessment").isSome ∧
      (lookupKey out "analysis_details").isSome ∧
      (lookupKey out "clinical_insights").isSome ∧
      (lookupKey out "limitations").isSome ∧
      (lookupKey fs "analysis_details" = none →
        lookupKey out "analysis_details" = some (Json.obj [])) ∧
      (lookupKey fs "clinical_insights" = none →
        lookupKey out "clinical_insights" = some (Json.obj [])) ∧
      (lookupKey fs "limitations" = none →
        lookupKey out "limitations" = some (Json.obj [])) ∧
      ∃ g2 : JsonObj,
        lookupKey out "glucose_assessment" = some (Json.obj g2) ∧
        (lookupKey g2 "primary_estimate").isSome ∧
        (lookupKey g2 "confidence_score").isSome ∧
        (lookupKey fs "glucose_assessment" = none →
          lookupKey g2 "primary_estimate" = some (Json.str "normal") ∧
          lookupKey g2 "confidence_score" = some (Json.num (1/2))) ∧
        (lookupKey g "primary_estimate" = none →
          lookupKey g2 "primary_estimate" = some (Json.str "normal")) ∧
        (lookupKey g "confidence_score" = none →
          lookupKey g2 "confidence_score" = some (Json.num (1/2))) := by
  obtain ⟨g0, hg0, hg0c⟩ :
      ∃ g0 : JsonObj,
        (lookupKey fs "glucose_assessment").getD (Json.obj []) = Json.obj g0 ∧
        ((lookupKey fs "glucose_assessment" = none ∧ g0 = []) ∨
         (lookupKey fs "glucose_assessment" = some (Json.obj g) ∧ g0 = g)) := by
    rcases hga with h | h
    · exact ⟨[], by rw [h]; rfl, Or.inl ⟨h, rfl⟩⟩
    · exact ⟨g, by rw [h]; rfl, Or.inr ⟨h, rfl⟩⟩
  have hval := validateResponse_eq fs g0 hg0
  have e_ga : lookupKey (ensureSections fs) "glucose_assessment" = some (Json.obj g0) := by
    rw [ensureSections_ga, hg0]
  have hg0pe : lookupKey g "primary_estimate" = none → lookupKey g0 "primary_estimate" = none := by
    intro h
    rcases hg0c with ⟨_, h2⟩ | ⟨_, h2⟩ <;> subst h2
    · rfl
    · exact h
  have hg0cs : lookupKey g "confidence_score" = none → lookupKey g0 "confidence_score" = none := by
    intro h
    rcases hg0c with ⟨_, h2⟩ | ⟨_, h2⟩ <;> subst h2
    · rfl
    · exact h
  have l_ga : lookupKey
      (setKey (ensureSections fs) "glucose_assessment"
        (Json.obj (ensureKey (ensureKey g0 "primary_estimate" (Json.str "normal"))
          "confidence_score" (Json.num (1/2)))))
      "glucose_assessment" =
      some (Json.obj (ensureKey (ensureKey g0 "primary_estimate" (Json.str "normal"))
        "confidence_score" (Json.num (1/2)))) :=
    lookupKey_setKey_self _ _ _ _ e_ga
  refine ⟨_, hval, ?_, ?_, ?_, ?_, ?_, ?_, ?_, ?_, ?_⟩
  · -- the gateway returns the validated parse
    have hse : s.isEmpty = false := by
      cases s with
      | nil => simp [strFind] at hfind
      | cons c cs => rfl
    have hlt : a < j + 1 := Nat.lt_succ_of_le haj
    simp only [parse_response, hse, Bool.false_eq_true, if_false, hfind, hrfind, hlt,
      if_true, hloads, hval]
  · rw [l_ga]
    rfl
  · rw [lookupKey_setKey_ne _ _ _ _ ne_ga_ad, ensureSections_ad]
    rfl
  · rw [lookupKey_setKey_ne _ _ _ _ ne_ga_ci, ensureSections_ci]
    rfl
  · rw [lookupKey_setKey_ne _ _ _ _ ne_ga_lim, ensureSections_lim]
    rfl
  · intro h
    rw [lookupKey_setKey_ne _ _ _ _ ne_ga_ad, ensureSections_ad, h]
    rfl
  · intro h
    rw [lookupKey_setKey_ne _ _ _ _ ne_ga_ci, ensureSections_ci, h]
    rfl
  · intro h
    rw [lookupKey_setKey_ne _ _ _ _ ne_ga_lim, ensureSections_lim, h]
    rfl
  · refine ⟨_, l_ga, ?_, ?_, ?_, ?_, ?_⟩
    · rw [lookupKey_ensureKey_ne _ _ _ _ ne_cs_pe, lookupKey_ensureKey_self]
      rfl
    · rw [lookupKey_ensureKey_self]
      rfl
    · intro h
      have h2 : g0 = [] := by
        rcases hg0c with ⟨_, h2⟩ | ⟨h1, _⟩
        · exact h2
        · rw [h] at h1
          cases h1
      subst h2
      constructor
      · rw [lookupKey_ensureKey_ne _ _ _ _ ne_cs_pe, lookupKey_ensureKey_self]
        rfl
      · rw [lookupKey_ensureKey_self, lookupKey_ensureKey_ne _ _ _ _ ne_pe_cs]
        rfl
    · intro h
      rw [lookupKey_ensureKey_ne _ _ _ _ ne_cs_pe, lookupKey_ensureKey_self, hg0pe h]
      rfl
    · intro h
      rw [lookupKey_ensureKey_self, lookupKey_ensureKey_ne _ _ _ _ ne_pe_cs, hg0cs h]
      rfl

/-- Witness for C2 at the two-character response consisting of one brace
pair, parsed (by a stand-in loads) as the empty dict. -/
theorem C2_parse_and_validate_witness :
    ∃ out : JsonObj,
      validateResponse [] = some out ∧
      parse_response (fun _ => some []) (some [openBrace, closeBrace]) = out ∧
      (lookupKey out "glucose_assessment").isSome ∧
      (lookupKey out "analysis_details").isSome ∧
      (lookupKey out "clinical_insights").isSome ∧
      (lookupKey out "limitations").isSome ∧
      (lookupKey ([] : JsonObj) "analysis_details" = none →
        lookupKey out "analysis_details" = some (Json.obj [])) ∧
      (lookupKey ([] : JsonObj) "clinical_insights" = none →
        lookupKey out "clinical_insights" = some (Json.obj [])) ∧
      (lookupKey ([] : JsonObj) "limitations" = none →
        lookupKey out "limitations" = some (Json.obj [])) ∧
      ∃ g2 : JsonObj,
        lookupKey out "glucose_assessment" = some (Json.obj g2) ∧
        (lookupKey g2 "primary_estimate").isSome ∧
        (lookupKey g2 "confidence_score").isSome ∧
        (lookupKey ([] : JsonObj) "glucose_assessment" = none →
          lookupKey g2 "primary_estimate" = some (Json.str "normal") ∧
          lookupKey g2 "confidence_score" = some (Json.num (1/2))) ∧
        (lookupKey ([] : JsonObj) "primary_estimate" = none →
          lookupKey g2 "primary_estimate" = some (Json.str "normal")) ∧
        (lookupKey ([] : JsonObj) "confidence_score" = none →
          lookupKey g2 "confidence_score" = some (Json.num (1/2))) :=
  C2_parse_and_validate (fun _ => some []) [openBrace, closeBrace] 0 1 [] []
    (by decide) (by decide) (by decide) rfl (Or.inl rfl)

/-- C3: whenever the reasoning-service call fails (the gateway receives
None), the response is empty, contains no parseable brace span, fails
json parsing, or fails validation, the inference gateway returns the
single canonical fallback constant, whose glucose_assessment carries
primary_estimate "normal" and confidence_score 0.3; every failure path
yields that same constant. -/
theorem C3_gateway_canonical_fallback (loads : List Char → Option JsonObj)
    (s : List Char) (a j : ℕ) (fs : JsonObj) :
    parse_response loads none = fallbackResponse ∧
    parse_response loads (some []) = fallbackResponse ∧
    (strFind s openBrace = none → parse_response loads (some s) = fallbackResponse) ∧
    (strRFind s closeBrace = none → parse_response loads (some s) = fallbackResponse) ∧
    (strFind s openBrace = some a → strRFind s closeBrace = some j → j < a →
      parse_response loads (some s) = fallbackResponse) ∧
    (strFind s openBrace = some a → strRFind s closeBrace = some j → a ≤ j →
      loads (strSlice s a (j + 1)) = none →
      parse_response loads (some s) = fallbackResponse) ∧
    (strFind s openBrace = some a → strRFind s closeBrace = some j → a ≤ j →
      loads (strSlice s a (j + 1)) = some fs → validateResponse fs = none →
      parse_response loads (some s) = fallbackResponse) ∧
    lookupKey fallbackResponse "glucose_assessment" = some (Json.obj
      [ ("primary_estimate", Json.str "normal")
      , ("estimated_range", Json.str "80-120 mg/dL")
      , ("confidence_score", Json.num (3/10))
      , ("risk_level", Json.str "minimal") ]) := by
  refine ⟨rfl, rfl, fun h1 => ?_, fun h2 => ?_, fun h1 h2 hlt => ?_,
    fun h1 h2 hle hl => ?_, fun h1 h2 hle hl hv => ?_, rfl⟩
  · cases s with
    | nil => rfl
    | cons c cs => simp [parse_response, h1]
  · cases s with
    | nil => rfl
    | cons c cs =>
      rcases h1 : strFind (c :: cs) openBrace with _ | a2
      · simp [parse_response, h1]
      · simp [parse_response, h1, h2]
  · cases s with
    | nil => rfl
    | cons c cs =>
      have hnlt : ¬ a < j + 1 := by omega
      simp [parse_response, h1, h2, hnlt]
  · cases s with
    | nil => rfl
    | cons c cs =>
      have hlt : a < j + 1 := Nat.lt_succ_of_le hle
      simp [parse_response, h1, h2, hlt, hl]
  · cases s with
    | nil => simp [strFind] at h1
    | cons c cs =>
      have hlt : a < j + 1 := Nat.lt_succ_of_le hle
      simp [parse_response, h1, h2, hlt, hl, hv]

/-- Witness for C3 at the single-character brace-free response "a"
(code point 97). -/
theorem C3_gateway_canonical_fallback_witness :
    strFind [Char.ofNat 97] openBrace = none ∧
    parse_response (fun _ => some []) (some [Char.ofNat 97]) = fallbackResponse :=
  ⟨by decide,
    (C3_gateway_canonical_fallback (fun _ => some []) [Char.ofNat 97] 0 0 []).2.2.1 (by decide)⟩

end GlucoAudio
